import Mathlib

/-!
Verification of the HetznerCloud driver adapter
(`src/molecule/driver/hetznercloud.py`).

The driver is a thin adapter: it looks up per-instance connection facts in
an instance-config file (an ordered sequence of records), exposes SSH login
parameters and Ansible connection variables, and performs one-shot sanity
checks (SDK importable, API token present).

Embedding choices:
- YAML/JSON scalar values are modelled by `Value` (strings and integers).
- A record ("dict") is an association list `Entry` with first-key-wins
  lookup, matching both Python dict semantics (keys are unique in the
  loaded records) and the file's record structure.
- Python exceptions relevant to the code are modelled by `PyError`
  (`StopIteration`, `KeyError`, `IOError`); fallible operations return
  `Except PyError _`.
- The instance-config file on disk is modelled as `Option (List Entry)`:
  `none` means `util.safe_load_file` raises `IOError` (file absent),
  `some entries` means the loaded sequence of records.
- Process termination via `sysexit_with_message` is modelled by the
  `SanityOutcome.exit` constructor carrying the message; the mutable
  `state.sanity_checked` flag is threaded explicitly.
-/

namespace MoleculeHetzner

/-- Scalar values appearing in instance-config records. -/
inductive Value where
  | str : String → Value
  | int : Int → Value
deriving DecidableEq, Repr

/-- A record (Python dict) as an association list. -/
abbrev Entry := List (String × Value)

/-- First-match key lookup in a record. -/
def lookupKey : Entry → String → Option Value
  | [], _ => none
  | (k, v) :: rest, key => if k = key then some v else lookupKey rest key

/-- Python exceptions raised by the code under study. -/
inductive PyError where
  | stopIteration : PyError
  | keyError : String → PyError
  | ioError : PyError
deriving DecidableEq, Repr

/-- Python `d[k]`: the value at `k`, or a `KeyError` naming the key. -/
def dict_get (d : Entry) (k : String) : Except PyError Value :=
  match lookupKey d k with
  | some v => Except.ok v
  | none => Except.error (PyError.keyError k)

/-- The driver-relevant slice of the molecule configuration:
`driver.instance_config` (a path) and the optional
`driver.ssh_connection_options` override list. -/
structure DriverCfg where
  instance_config : String
  ssh_connection_options_setting : Option (List String)
deriving DecidableEq, Repr

/-- Python `' '.join(l)`. -/
def joinSpace (l : List String) : String := String.intercalate " " l

/-- `HetznerCloud._get_ssh_connection_options` (hetznercloud.py lines
124-135): the fixed policy list of five SSH options. -/
def _get_ssh_connection_options : List String :=
  [ "-o UserKnownHostsFile=/dev/null",
    "-o ControlMaster=auto",
    "-o ControlPersist=60s",
    "-o IdentitiesOnly=no",
    "-o StrictHostKeyChecking=no" ]

/-- `HetznerCloud.default_ssh_connection_options`: delegates to
`_get_ssh_connection_options`. -/
def default_ssh_connection_options : List String := _get_ssh_connection_options

/-- Modelled from the spec: the base-class property `ssh_connection_options`
(`molecule/driver/base.py`, not under src/) returns the configured
`driver.ssh_connection_options` list when one is set, otherwise the
driver's defaults; per the spec the configured "list fully overrides
defaults — lists are never merged with the built-in defaults". -/
def ssh_connection_options (cfg : DriverCfg) : List String :=
  match cfg.ssh_connection_options_setting with
  | some opts => opts
  | none => default_ssh_connection_options

/-- `HetznerCloud.login_cmd_template` (lines 109-116): the Python
`.format` call turns each doubled brace into a literal brace and splices
the space-joined options at the end, yielding
`ssh \x7baddress\x7d -l \x7buser\x7d -p \x7bport\x7d <options>`. -/
def login_cmd_template (cfg : DriverCfg) : String :=
  "ssh \x7baddress\x7d -l \x7buser\x7d -p \x7bport\x7d " ++
    joinSpace (ssh_connection_options cfg)

/-- `HetznerCloud.default_safe_files` (lines 118-122). -/
def default_safe_files (cfg : DriverCfg) : List String :=
  [cfg.instance_config]

/-- The generator search `next(item for item in instance_config_dict if
item['instance'] == instance_name)`: first record whose `instance` value
equals the name; `StopIteration` when none matches; `KeyError` if a
scanned record lacks the `instance` key. -/
def firstMatching : List Entry → String → Except PyError Entry
  | [], _ => Except.error PyError.stopIteration
  | d :: rest, name =>
    match dict_get d "instance" with
    | Except.error e => Except.error e
    | Except.ok v =>
      if v = Value.str name then Except.ok d else firstMatching rest name

/-- `HetznerCloud._get_instance_config` (lines 161-166): load the
instance-config file (`IOError` when absent) and return the first record
matching the name. -/
def _get_instance_config (file : Option (List Entry)) (name : String) :
    Except PyError Entry :=
  match file with
  | none => Except.error PyError.ioError
  | some entries => firstMatching entries name

/-- Modelled from the spec: `util.merge_dicts` (`molecule/util.py`, not
under src/) merges the second mapping's fields over the first into a
single mapping, the second mapping's values taking precedence on
conflicting keys. -/
def merge_dicts (a b : Entry) : Entry :=
  a.filter (fun p => (lookupKey b p.fst).isNone) ++ b

/-- `HetznerCloud.login_options` (lines 137-140): merge
`\x7b'instance': instance_name\x7d` with the found record; any lookup
exception propagates. -/
def login_options (file : Option (List Entry)) (name : String) :
    Except PyError Entry :=
  match _get_instance_config file name with
  | Except.error e => Except.error e
  | Except.ok d => Except.ok (merge_dicts [("instance", Value.str name)] d)

/-- The `try` body of `HetznerCloud.ansible_connection_options` (lines
143-153): look up the record and build the five-key mapping; the dict
literal evaluates `d['user']`, `d['address']`, `d['port']` in order. -/
def ansible_connection_options_body (cfg : DriverCfg)
    (file : Option (List Entry)) (name : String) : Except PyError Entry :=
  match _get_instance_config file name with
  | Except.error e => Except.error e
  | Except.ok d =>
    match dict_get d "user" with
    | Except.error e => Except.error e
    | Except.ok u =>
      match dict_get d "address" with
      | Except.error e => Except.error e
      | Except.ok a =>
        match dict_get d "port" with
        | Except.error e => Except.error e
        | Except.ok p =>
          Except.ok
            [ ("ansible_user", u),
              ("ansible_host", a),
              ("ansible_port", p),
              ("connection", Value.str "ssh"),
              ("ansible_ssh_common_args",
                Value.str (joinSpace (ssh_connection_options cfg))) ]

/-- `HetznerCloud.ansible_connection_options` (lines 142-159): the body
with `except StopIteration: return \x7b\x7d` and
`except IOError: return \x7b\x7d`; every other exception (in particular
`KeyError`) propagates. -/
def ansible_connection_options (cfg : DriverCfg)
    (file : Option (List Entry)) (name : String) : Except PyError Entry :=
  match ansible_connection_options_body cfg file name with
  | Except.error PyError.stopIteration => Except.ok []
  | Except.error PyError.ioError => Except.ok []
  | r => r

/-- The process environment facts `sanity_checks` consults: whether
`import hcloud` succeeds and whether `HCLOUD_TOKEN` is in `os.environ`. -/
structure Env where
  hcloud_importable : Bool
  hcloud_token_present : Bool
deriving DecidableEq, Repr

/-- The outcome of a `sanity_checks` call: early return because the flag
is already set, process termination with a message
(`sysexit_with_message`), or successful completion of the checks. -/
inductive SanityOutcome where
  | skip : SanityOutcome
  | exit : String → SanityOutcome
  | ok : SanityOutcome
deriving DecidableEq, Repr

/-- The remediation message for a missing `hcloud` SDK (lines 178-181). -/
def msg_missing_sdk : String :=
  "Missing Hetzner Cloud driver dependency. Please install via \x27molecule[hetznercloud]\x27 or refer to your INSTALL.rst driver documentation file"

/-- The remediation message for a missing `HCLOUD_TOKEN` (lines 185-187). -/
def msg_missing_token : String :=
  "Missing Hetzner Cloud API token. Please expose the HCLOUD_TOKEN environment variable with your account API token value"

/-- `HetznerCloud.sanity_checks` (lines 168-190): short-circuit when the
flag is set; otherwise check SDK importability then token presence, each
failure terminating the process; on success set the flag. Returns the
outcome and the resulting `sanity_checked` flag. -/
def sanity_checks (sanity_checked : Bool) (env : Env) :
    SanityOutcome × Bool :=
  if sanity_checked then (SanityOutcome.skip, sanity_checked)
  else if env.hcloud_importable = false then
    (SanityOutcome.exit msg_missing_sdk, sanity_checked)
  else if env.hcloud_token_present = false then
    (SanityOutcome.exit msg_missing_token, sanity_checked)
  else (SanityOutcome.ok, true)

/-! Helper lemmas about the record search. -/

/-- When every record of `pre` carries an `instance` value different from
`name` and `d` carries exactly `name`, the search returns `d`. -/
theorem firstMatching_first (pre post : List Entry) (d : Entry)
    (name : String)
    (hpre : ∀ x ∈ pre, ∃ s, lookupKey x "instance" = some (Value.str s) ∧ s ≠ name)
    (hd : lookupKey d "instance" = some (Value.str name)) :
    firstMatching (pre ++ d :: post) name = Except.ok d := by
  induction pre with
  | nil => simp [firstMatching, dict_get, hd]
  | cons x rest ih =>
    obtain ⟨s, hs, hne⟩ := hpre x (by simp)
    have hrest : ∀ y ∈ rest, ∃ s, lookupKey y "instance" = some (Value.str s) ∧ s ≠ name :=
      fun y hy => hpre y (by simp [hy])
    simp only [List.cons_append, firstMatching, dict_get, hs]
    rw [if_neg (by simp [hne])]
    exact ih hrest

/-- When every record carries an `instance` value different from `name`,
the search raises `StopIteration`. -/
theorem firstMatching_none (entries : List Entry) (name : String)
    (h : ∀ x ∈ entries, ∃ s, lookupKey x "instance" = some (Value.str s) ∧ s ≠ name) :
    firstMatching entries name = Except.error PyError.stopIteration := by
  induction entries with
  | nil => rfl
  | cons x rest ih =>
    obtain ⟨s, hs, hne⟩ := h x (by simp)
    have hrest : ∀ y ∈ rest, ∃ s, lookupKey y "instance" = some (Value.str s) ∧ s ≠ name :=
      fun y hy => h y (by simp [hy])
    simp only [firstMatching, dict_get, hs]
    rw [if_neg (by simp [hne])]
    exact ih hrest

/-- C1: for every instance-config file containing an entry whose
`instance` field equals the given name (and whose earlier entries name
other instances), `ansible_connection_options` returns exactly the
five-key mapping `ansible_user`/`ansible_host`/`ansible_port` from the
entry's `user`/`address`/`port` fields, `connection = "ssh"`, and
`ansible_ssh_common_args` the space-joined configured SSH connection
options — and nothing else. -/
theorem ansible_connection_options_found (cfg : DriverCfg)
    (pre post : List Entry) (d : Entry) (name : String) (u a p : Value)
    (hpre : ∀ x ∈ pre, ∃ s, lookupKey x "instance" = some (Value.str s) ∧ s ≠ name)
    (hd : lookupKey d "instance" = some (Value.str name))
    (hu : lookupKey d "user" = some u)
    (ha : lookupKey d "address" = some a)
    (hp : lookupKey d "port" = some p) :
    ansible_connection_options cfg (some (pre ++ d :: post)) name =
      Except.ok
        [ ("ansible_user", u),
          ("ansible_host", a),
          ("ansible_port", p),
          ("connection", Value.str "ssh"),
          ("ansible_ssh_common_args",
            Value.str (joinSpace (ssh_connection_options cfg))) ] := by
  have hfind : _get_instance_config (some (pre ++ d :: post)) name = Except.ok d :=
    firstMatching_first pre post d name hpre hd
  unfold ansible_connection_options ansible_connection_options_body
  rw [hfind]
  simp [dict_get, hu, ha, hp]

/-- C1 witness: on the spec's example entry
`\x7binstance: "i1", user: "root", address: "1.2.3.4", port: 22\x7d`
the returned mapping is exactly the five-key mapping. -/
theorem ansible_connection_options_found_witness :
    ansible_connection_options ⟨"/tmp/instance_config.yml", none⟩
      (some [[("instance", Value.str "i1"), ("user", Value.str "root"),
              ("address", Value.str "1.2.3.4"), ("port", Value.int 22)]])
      "i1" =
      Except.ok
        [ ("ansible_user", Value.str "root"),
          ("ansible_host", Value.str "1.2.3.4"),
          ("ansible_port", Value.int 22),
          ("connection", Value.str "ssh"),
          ("ansible_ssh_common_args",
            Value.str (joinSpace (ssh_connection_options ⟨"/tmp/instance_config.yml", none⟩))) ] :=
  ansible_connection_options_found ⟨"/tmp/instance_config.yml", none⟩
    [] []
    [("instance", Value.str "i1"), ("user", Value.str "root"),
     ("address", Value.str "1.2.3.4"), ("port", Value.int 22)]
    "i1" (Value.str "root") (Value.str "1.2.3.4") (Value.int 22)
    (by simp) (by decide) (by decide) (by decide) (by decide)

/-- C2: for every instance name carried by no entry of the
instance-config file, and also whenever the file does not exist,
`ansible_connection_options` returns an empty mapping rather than
raising. -/
theorem ansible_connection_options_empty (cfg : DriverCfg)
    (name : String) (entries : List Entry)
    (h : ∀ d ∈ entries, ∃ s, lookupKey d "instance" = some (Value.str s) ∧ s ≠ name) :
    ansible_connection_options cfg none name = Except.ok [] ∧
    ansible_connection_options cfg (some entries) name = Except.ok [] := by
  have hfm := firstMatching_none entries name h
  exact ⟨rfl, by
    simp [ansible_connection_options, ansible_connection_options_body,
      _get_instance_config, hfm]⟩

/-- C2 witness: with a file holding only an entry for `"other"`, looking
up `"i1"` yields the empty mapping, as does a missing file. -/
theorem ansible_connection_options_empty_witness :
    ansible_connection_options ⟨"/tmp/instance_config.yml", none⟩ none "i1" = Except.ok [] ∧
    ansible_connection_options ⟨"/tmp/instance_config.yml", none⟩
      (some [[("instance", Value.str "other")]]) "i1" = Except.ok [] :=
  ansible_connection_options_empty ⟨"/tmp/instance_config.yml", none⟩
    "i1" [[("instance", Value.str "other")]]
    (by
      intro d hd
      simp only [List.mem_singleton] at hd
      subst hd
      exact ⟨"other", rfl, by decide⟩)

/-- When some record carries `instance = name` and every record carries
some string `instance` value, the search succeeds on a matching record. -/
theorem firstMatching_exists (entries : List Entry) (name : String)
    (hwf : ∀ d ∈ entries, ∃ s, lookupKey d "instance" = some (Value.str s))
    (hex : ∃ d ∈ entries, lookupKey d "instance" = some (Value.str name)) :
    ∃ e, firstMatching entries name = Except.ok e ∧
      lookupKey e "instance" = some (Value.str name) := by
  induction entries with
  | nil => simp at hex
  | cons x rest ih =>
    obtain ⟨s, hs⟩ := hwf x (by simp)
    by_cases hsn : s = name
    · subst hsn
      exact ⟨x, by simp [firstMatching, dict_get, hs], hs⟩
    · obtain ⟨d, hd, hdm⟩ := hex
      rcases List.mem_cons.mp hd with h1 | h2
      · subst h1
        rw [hs] at hdm
        exact absurd hdm (by simp [hsn])
      · obtain ⟨e, he, hem⟩ :=
          ih (fun y hy => hwf y (by simp [hy])) ⟨d, h2, hdm⟩
        refine ⟨e, ?_, hem⟩
        simp only [firstMatching, dict_get, hs]
        rw [if_neg (by simp [hsn])]
        exact he

/-- C3: on a well-formed file, `login_options` raises the not-found
condition (`StopIteration`, propagated) exactly when no entry carries
`instance = name`; otherwise it returns
`merge_dicts \x7binstance: name\x7d` with the found entry's fields. -/
theorem login_options_spec (entries : List Entry) (name : String)
    (hwf : ∀ d ∈ entries, ∃ s, lookupKey d "instance" = some (Value.str s)) :
    (login_options (some entries) name = Except.error PyError.stopIteration ↔
      ∀ d ∈ entries, lookupKey d "instance" ≠ some (Value.str name)) ∧
    ((∃ d ∈ entries, lookupKey d "instance" = some (Value.str name)) →
      ∃ e, _get_instance_config (some entries) name = Except.ok e ∧
        login_options (some entries) name =
          Except.ok (merge_dicts [("instance", Value.str name)] e)) := by
  constructor
  · constructor
    · intro herr
      by_contra hne
      push_neg at hne
      obtain ⟨d, hd, hdm⟩ := hne
      obtain ⟨e, he, _⟩ := firstMatching_exists entries name hwf ⟨d, hd, hdm⟩
      simp [login_options, _get_instance_config, he] at herr
    · intro hall
      have h2 : ∀ x ∈ entries, ∃ s,
          lookupKey x "instance" = some (Value.str s) ∧ s ≠ name := by
        intro x hx
        obtain ⟨s, hs⟩ := hwf x hx
        refine ⟨s, hs, ?_⟩
        intro hc
        subst hc
        exact hall x hx hs
      simp [login_options, _get_instance_config,
        firstMatching_none entries name h2]
  · intro hex
    obtain ⟨e, he, _⟩ := firstMatching_exists entries name hwf hex
    exact ⟨e, by simp [_get_instance_config, he],
      by simp [login_options, _get_instance_config, he]⟩

/-- C3 witness: with a file holding only an entry for `"i2"`, looking up
`"i1"` raises the not-found condition. -/
theorem login_options_spec_witness :
    login_options (some [[("instance", Value.str "i2")]]) "i1" =
      Except.error PyError.stopIteration :=
  (login_options_spec [[("instance", Value.str "i2")]] "i1"
    (by
      intro d hd
      simp only [List.mem_singleton] at hd
      subst hd
      exact ⟨"i2", rfl⟩)).1.mpr (by decide)

/-- C8: with duplicated instance names in the file, both `login_options`
and `ansible_connection_options` use the first matching entry, and the
entries after it (whatever they are) have no effect on the result. -/
theorem first_match_wins (cfg : DriverCfg) (pre post alt : List Entry)
    (d : Entry) (name : String)
    (hpre : ∀ x ∈ pre, ∃ s, lookupKey x "instance" = some (Value.str s) ∧ s ≠ name)
    (hd : lookupKey d "instance" = some (Value.str name)) :
    _get_instance_config (some (pre ++ d :: post)) name = Except.ok d ∧
    login_options (some (pre ++ d :: post)) name =
      login_options (some (pre ++ d :: alt)) name ∧
    ansible_connection_options cfg (some (pre ++ d :: post)) name =
      ansible_connection_options cfg (some (pre ++ d :: alt)) name := by
  have h1 := firstMatching_first pre post d name hpre hd
  have h2 := firstMatching_first pre alt d name hpre hd
  refine ⟨by simp [_get_instance_config, h1], ?_, ?_⟩
  · simp [login_options, _get_instance_config, h1, h2]
  · simp [ansible_connection_options, ansible_connection_options_body,
      _get_instance_config, h1, h2]

/-- C8 witness: with two entries both named `"i1"`, the lookup returns
the first one. -/
theorem first_match_wins_witness :
    _get_instance_config
      (some [[("instance", Value.str "i1"), ("user", Value.str "root")],
             [("instance", Value.str "i1"), ("user", Value.str "admin")]])
      "i1" =
      Except.ok [("instance", Value.str "i1"), ("user", Value.str "root")] :=
  (first_match_wins ⟨"/tmp/instance_config.yml", none⟩ []
    [[("instance", Value.str "i1"), ("user", Value.str "admin")]] []
    [("instance", Value.str "i1"), ("user", Value.str "root")] "i1"
    (by simp) (by decide)).1

/-- C10: the empty-mapping recovery covers only `StopIteration` and
`IOError`; when the found entry lacks `user`, `address` or `port`, the
`KeyError` naming that key propagates instead of yielding an empty
mapping. -/
theorem ansible_connection_options_keyerror (cfg : DriverCfg)
    (file : Option (List Entry)) (name : String) (d : Entry)
    (hfind : _get_instance_config file name = Except.ok d) :
    (lookupKey d "user" = none →
      ansible_connection_options cfg file name =
        Except.error (PyError.keyError "user")) ∧
    (∀ u, lookupKey d "user" = some u → lookupKey d "address" = none →
      ansible_connection_options cfg file name =
        Except.error (PyError.keyError "address")) ∧
    (∀ u a, lookupKey d "user" = some u →
      lookupKey d "address" = some a → lookupKey d "port" = none →
      ansible_connection_options cfg file name =
        Except.error (PyError.keyError "port")) := by
  refine ⟨?_, ?_, ?_⟩
  · intro hu
    simp [ansible_connection_options, ansible_connection_options_body,
      dict_get, hfind, hu]
  · intro u hu ha
    simp [ansible_connection_options, ansible_connection_options_body,
      dict_get, hfind, hu, ha]
  · intro u a hu ha hp
    simp [ansible_connection_options, ansible_connection_options_body,
      dict_get, hfind, hu, ha, hp]

/-- C10 witness: an entry matching `"i1"` but lacking the `user` key
makes `ansible_connection_options` propagate `KeyError("user")`. -/
theorem ansible_connection_options_keyerror_witness :
    ansible_connection_options ⟨"/tmp/instance_config.yml", none⟩
      (some [[("instance", Value.str "i1")]]) "i1" =
      Except.error (PyError.keyError "user") :=
  (ansible_connection_options_keyerror ⟨"/tmp/instance_config.yml", none⟩
    (some [[("instance", Value.str "i1")]]) "i1"
    [("instance", Value.str "i1")] (by rfl)).1 (by decide)

/-- C4: with the flag unset, a missing SDK terminates the process with
the remediation message, and with the SDK present a missing
`HCLOUD_TOKEN` terminates the process with the message naming that
variable (so the SDK check comes first); neither path sets the flag, and
the token message names `HCLOUD_TOKEN`. -/
theorem sanity_checks_fatal (env : Env) :
    (env.hcloud_importable = false →
      sanity_checks false env = (SanityOutcome.exit msg_missing_sdk, false)) ∧
    (env.hcloud_importable = true → env.hcloud_token_present = false →
      sanity_checks false env = (SanityOutcome.exit msg_missing_token, false)) ∧
    "HCLOUD_TOKEN".toList <:+: msg_missing_token.toList := by
  refine ⟨?_, ?_, ?_⟩
  · intro h
    simp [sanity_checks, h]
  · intro h1 h2
    simp [sanity_checks, h1, h2]
  · decide

/-- C4 witness: both fatal paths at concrete environments; with both
checks failing the SDK message wins. -/
theorem sanity_checks_fatal_witness :
    sanity_checks false ⟨false, false⟩ =
      (SanityOutcome.exit msg_missing_sdk, false) ∧
    sanity_checks false ⟨true, false⟩ =
      (SanityOutcome.exit msg_missing_token, false) :=
  ⟨(sanity_checks_fatal ⟨false, false⟩).1 rfl,
   (sanity_checks_fatal ⟨true, false⟩).2.1 rfl rfl⟩

/-- C5: a successful `sanity_checks` call sets the flag; any call made
with the flag already set (whatever the environment) returns immediately
with outcome `skip`, performing no checks; so the call following a
successful one is a no-op. -/
theorem sanity_checks_one_way (env env2 : Env)
    (h : (sanity_checks false env).fst = SanityOutcome.ok) :
    (sanity_checks false env).snd = true ∧
    sanity_checks true env2 = (SanityOutcome.skip, true) ∧
    sanity_checks (sanity_checks false env).snd env2 =
      (SanityOutcome.skip, true) := by
  obtain ⟨imp, tok⟩ := env
  cases imp <;> cases tok <;> simp_all [sanity_checks]

/-- C5 witness: after a successful first call, a second call skips the
checks even in an environment where they would fail. -/
theorem sanity_checks_one_way_witness :
    (sanity_checks false ⟨true, true⟩).snd = true ∧
    sanity_checks true ⟨false, false⟩ = (SanityOutcome.skip, true) ∧
    sanity_checks (sanity_checks false ⟨true, true⟩).snd ⟨false, false⟩ =
      (SanityOutcome.skip, true) :=
  sanity_checks_one_way ⟨true, true⟩ ⟨false, false⟩ rfl

/-- C6: `default_ssh_connection_options` is the fixed five-element list,
in order: no known-hosts storage, connection multiplexing with a
60-second persistence window, identities-only disabled, host-key
checking disabled. -/
theorem default_ssh_connection_options_fixed :
    default_ssh_connection_options =
      [ "-o UserKnownHostsFile=/dev/null",
        "-o ControlMaster=auto",
        "-o ControlPersist=60s",
        "-o IdentitiesOnly=no",
        "-o StrictHostKeyChecking=no" ] ∧
    default_ssh_connection_options.length = 5 :=
  ⟨rfl, rfl⟩

/-- C7: `login_cmd_template` is exactly the literal
`ssh \x7baddress\x7d -l \x7buser\x7d -p \x7bport\x7d ` followed by the
space-joined SSH connection options in effect; it is a pure function of
the configuration. -/
theorem login_cmd_template_spec (cfg : DriverCfg) (opts : List String)
    (hopts : ssh_connection_options cfg = opts) :
    login_cmd_template cfg =
      "ssh \x7baddress\x7d -l \x7buser\x7d -p \x7bport\x7d " ++
        String.intercalate " " opts := by
  simp [login_cmd_template, joinSpace, hopts]

/-- C7 witness: with a configured single-option override the template is
the literal prefix followed by that option. -/
theorem login_cmd_template_spec_witness :
    login_cmd_template ⟨"/tmp/instance_config.yml", some ["-o ControlPath=~/.ansible/cp/x"]⟩ =
      "ssh \x7baddress\x7d -l \x7buser\x7d -p \x7bport\x7d " ++
        String.intercalate " " ["-o ControlPath=~/.ansible/cp/x"] :=
  login_cmd_template_spec
    ⟨"/tmp/instance_config.yml", some ["-o ControlPath=~/.ansible/cp/x"]⟩
    ["-o ControlPath=~/.ansible/cp/x"] rfl

/-- C9: `default_safe_files` always contains the configured
instance-config path, for every configuration. -/
theorem default_safe_files_contains (cfg : DriverCfg) :
    cfg.instance_config ∈ default_safe_files cfg := by
  simp [default_safe_files]

end MoleculeHetzner
